import Mathlib

/-!
Verification of the oliveyoung crawler's scroll-capture and image-stitching
core, embedded shallowly from `src/Program/oliveyoung_crawler_refactored.py`
(class `ScreenshotManager`, method `capture_scrolling_screenshots`,
`merge_screenshots`, `_cleanup_temp_files`, and
`OliveYoungCrawler.capture_category_ranking`) and from the legacy variant
`src/Program/oliveyoung_crawler.py` (`_scroll_and_capture`,
`_get_screenshot_files`, `_combine_images`).

The browser is modelled as an environment: the observed scroll offset after
the k-th scroll command is a function of k, and fallible driver/file
operations are modelled with `Option`/`Bool` flags (a `none`/`false` stands
for the Python operation raising an exception, which the source catches).
-/

namespace OliveYoung

/-- An image as PIL exposes it to the merge code: a width and a height in
pixels (`Image.open(path).width` / `.height`). -/
structure Img where
  width : Nat
  height : Nat
deriving Repr, DecidableEq

/-- The tail-trimming heuristic shared by both merge implementations:
`screenshots = screenshots[:-2] if len(screenshots) > 2 else screenshots`
(`merge_screenshots` lines 159-161 of the refactored file, and
`_get_screenshot_files` line 373 of the legacy file). Python `l[:-2]` on a
list of length `n > 2` is the first `n - 2` elements. -/
def trimFrames {α : Type} (screenshots : List α) : List α :=
  if 2 < screenshots.length then screenshots.take (screenshots.length - 2)
  else screenshots

/-- The canvas-height computation of `merge_screenshots` (lines 166-172):
`total_height = sum(img.height for img in images)` then
`if overlap_pixels > 0 and len(images) > 1: total_height -= overlap_pixels * (len(images) - 1)`.
Python integers do not truncate, so the computation lives in `Int`. -/
def canvasHeight (images : List Img) (overlap_pixels : Int) : Int :=
  let total : Int := (images.map fun img => (img.height : Int)).sum
  if 0 < overlap_pixels ∧ 1 < images.length then
    total - overlap_pixels * ((images.length : Int) - 1)
  else total

/-- The environment the merge runs against: `load p` is `Image.open(p)`
(`none` models the open raising), `saveOk` tells whether `merged.save`
succeeds. Paths are abstract (`α`). -/
structure MergeEnv (α : Type) where
  load : α → Option Img
  saveOk : Bool

/-- `[Image.open(path) for path in screenshots]` (line 164): the first
failing open raises, aborting the whole comprehension. -/
def loadImages {α : Type} (load : α → Option Img) : List α → Option (List Img)
  | [] => some []
  | p :: ps =>
    match load p, loadImages load ps with
    | some img, some imgs => some (img :: imgs)
    | _, _ => none

/-- What one call of `merge_screenshots` produces: `output` is the
`(width, height)` of the canvas that was written (`none` when the method
returns `None`), `deleted` is the list of paths passed to
`_cleanup_temp_files`, each of which gets unlinked (lines 205-211). -/
structure MergeOutcome (α : Type) where
  output : Option (Int × Int)
  deleted : List α
deriving Repr, DecidableEq

/-- `ScreenshotManager.merge_screenshots` (lines 147-203). Empty input
returns `None` at once. Otherwise the list is trimmed, all trimmed frames
are opened (a failure raises into the `except` which returns `None` with no
cleanup), the canvas dimensions are `images[0].width` by the overlap-adjusted
total height, the canvas is written (a failure again raises into the
`except`), and only then `_cleanup_temp_files` unlinks the paths in the
local (already trimmed) `screenshots` variable. -/
def merge_screenshots {α : Type} (env : MergeEnv α) (screenshots : List α)
    (overlap_pixels : Int) : MergeOutcome α :=
  if screenshots.isEmpty then ⟨none, []⟩
  else
    let trimmed := trimFrames screenshots
    match loadImages env.load trimmed with
    | none => ⟨none, []⟩
    | some images =>
      match images with
      | [] => ⟨none, []⟩
      | img0 :: _ =>
        if env.saveOk then
          ⟨some ((img0.width : Int), canvasHeight images overlap_pixels), trimmed⟩
        else ⟨none, []⟩

/-- The legacy `_combine_images` (lines 381-397 of the legacy file): raises
on an empty list, otherwise the canvas is `images[0].width` wide and exactly
`sum` of the heights tall (no overlap compensation). -/
def combine_images (images : List Img) : Option (Int × Int) :=
  match images with
  | [] => none
  | img0 :: _ => some ((img0.width : Int), (images.map fun img => (img.height : Int)).sum)

/-- The trace of one run of the scroll-capture loop of
`capture_scrolling_screenshots` (lines 73-99): the indices of the captured
frames in order, the `after_scroll` offsets observed after each scroll
command, and the number of scroll commands issued. -/
structure CaptureTrace where
  frames : List Nat
  offsets : List Int
  scrolls : Nat
deriving Repr, DecidableEq

/-- The loop body of `capture_scrolling_screenshots` (lines 76-97), in the
failure-free executions: each iteration captures frame `scrollCount`, issues
one scroll command whose observed `after_scroll` offset is `obs scrollCount`,
and breaks when that offset equals `last` (`last_scroll_top`, initially -1).
`fuel` is `max_scrolls - scroll_count`, so the `while scroll_count <
max_scrolls` guard is `fuel > 0`. -/
def captureLoopAux (obs : Nat → Int) : Nat → Nat → Int → CaptureTrace
  | 0, _, _ => ⟨[], [], 0⟩
  | fuel + 1, scrollCount, last =>
    let after := obs scrollCount
    if after = last then ⟨[scrollCount], [after], 1⟩
    else
      let rest := captureLoopAux obs fuel (scrollCount + 1) after
      ⟨scrollCount :: rest.frames, after :: rest.offsets, rest.scrolls + 1⟩

/-- `capture_scrolling_screenshots` in a failure-free environment:
`scroll_count = 0`, `last_scroll_top = -1` (lines 73-74), then the loop. -/
def captureLoop (obs : Nat → Int) (max_scrolls : Nat) : CaptureTrace :=
  captureLoopAux obs max_scrolls 0 (-1)

/-- The offset a browser container with the given metrics reports after the
`(k+1)`-th `container.scrollTop += container.clientHeight` command
(`_scroll_container`, lines 128-145), starting from `scrollTop = 0`: the DOM
clamps `scrollTop` into `[0, scrollHeight - clientHeight]`. -/
def clampedOffset (scrollHeight clientHeight : Int) (k : Nat) : Int :=
  min (clientHeight * ((k : Int) + 1)) (max (scrollHeight - clientHeight) 0)

/-- `finalRepeat prev offsets` holds exactly when the last observed offset
equals the offset observed just before it (`prev` standing in before any
observation): the stop condition of line 92. -/
def finalRepeat (prev : Int) : List Int → Bool
  | [] => false
  | [a] => decide (a = prev)
  | a :: b :: rest => finalRepeat a (b :: rest)

/-- The loop of the legacy `_scroll_and_capture` (lines 154-177 of the
legacy file): one screenshot before the loop, then each iteration scrolls,
saves a screenshot, and breaks when the observed offset equals the previous
one. Returns the captured frame indices. -/
def scrollAndCaptureAux (obs : Nat → Int) : Nat → Nat → Int → List Nat
  | 0, _, _ => []
  | fuel + 1, scrollCount, last =>
    let after := obs scrollCount
    if after = last then [scrollCount + 1]
    else (scrollCount + 1) :: scrollAndCaptureAux obs fuel (scrollCount + 1) after

/-- `_scroll_and_capture` in a failure-free environment: the initial
screenshot (index 0, line 152) followed by the loop frames. -/
def scroll_and_capture (obs : Nat → Int) (max_scrolls : Nat) : List Nat :=
  0 :: scrollAndCaptureAux obs max_scrolls 0 (-1)

/-- The full environment `capture_scrolling_screenshots` runs against,
including failures: `containerExists` is the result of `_container_exists`
(`none` models the driver call raising), `infoOk` tells whether
`_get_container_info` succeeds, `saveOk k` whether `driver.save_screenshot`
succeeds at iteration `k`, and `scrollResult k` is the observed
`after_scroll` of the k-th scroll command (`none` models the command
raising). -/
structure CaptureEnv where
  containerExists : Option Bool
  infoOk : Bool
  saveOk : Nat → Bool
  scrollResult : Nat → Option Int

/-- The loop of lines 76-97 with failures: a raising `save_screenshot`
aborts before appending the current frame; a raising scroll command aborts
after it. Either way the `except` of lines 101-103 returns the frames
accumulated so far. -/
def captureExcAux (env : CaptureEnv) : Nat → Nat → Int → List Nat
  | 0, _, _ => []
  | fuel + 1, scrollCount, last =>
    if env.saveOk scrollCount then
      match env.scrollResult scrollCount with
      | none => [scrollCount]
      | some after =>
        if after = last then [scrollCount]
        else scrollCount :: captureExcAux env fuel (scrollCount + 1) after
    else []

/-- `ScreenshotManager.capture_scrolling_screenshots` (lines 48-103): a
missing container, a raising existence check, or a raising info read all
yield the empty list; otherwise the loop runs. The method never raises: the
`try`/`except Exception` returns `screenshots` on any error. -/
def capture_scrolling_screenshots (env : CaptureEnv) (max_scrolls : Nat) : List Nat :=
  match env.containerExists with
  | none => []
  | some false => []
  | some true =>
    if env.infoOk then captureExcAux env max_scrolls 0 (-1) else []

/-- The failure-free environment induced by an offset observation
function. -/
def pureEnv (obs : Nat → Int) : CaptureEnv :=
  ⟨some true, true, fun _ => true, fun k => some (obs k)⟩

/-- What `OliveYoungCrawler.capture_category_ranking` (lines 549-607)
decides about a low first capture: `restarts` counts the
restart-and-recapture passes, `chosen` is the screenshot list handed to the
merge (`none` when the method returns `None` before merging). -/
structure RankingOutcome (α : Type) where
  restarts : Nat
  chosen : Option (List α)
deriving Repr, DecidableEq

/-- The screenshot-selection logic of `capture_category_ranking`: an empty
first capture returns `None` (line 545-547); a first capture below
`MIN_EXPECTED_SCREENSHOTS` triggers exactly one browser restart and retry
capture (`retryRun`, with `none` modelling the restart or recapture
raising, line 604-606, which keeps the original list); a non-empty retry
replaces the original whether or not it reaches the threshold (lines
592-600), an empty retry keeps the original (line 601-602). -/
def capture_category_ranking {α : Type} (MIN_EXPECTED : Nat) (first : List α)
    (retryRun : Option (List α)) : RankingOutcome α :=
  if first.isEmpty then ⟨0, none⟩
  else if first.length < MIN_EXPECTED then
    match retryRun with
    | none => ⟨1, some first⟩
    | some r => if r.isEmpty then ⟨1, some first⟩ else ⟨1, some r⟩
  else ⟨0, some first⟩

/-! ### Helper lemmas about the capture loop -/

/-- The captured frame indices are consecutive, starting at the current
`scroll_count`, one per scroll command. -/
lemma captureLoopAux_frames (obs : Nat → Int) :
    ∀ (fuel scrollCount : Nat) (last : Int),
      (captureLoopAux obs fuel scrollCount last).frames =
        List.range' scrollCount (captureLoopAux obs fuel scrollCount last).scrolls
  | 0, _, _ => rfl
  | fuel + 1, scrollCount, last => by
    by_cases h : obs scrollCount = last
    · simp [captureLoopAux, h]
    · simp only [captureLoopAux, if_neg h, List.range'_succ]
      exact congrArg _ (captureLoopAux_frames obs fuel (scrollCount + 1) (obs scrollCount))

/-- One observed offset per scroll command. -/
lemma captureLoopAux_offsets_length (obs : Nat → Int) :
    ∀ (fuel scrollCount : Nat) (last : Int),
      (captureLoopAux obs fuel scrollCount last).offsets.length =
        (captureLoopAux obs fuel scrollCount last).scrolls
  | 0, _, _ => rfl
  | fuel + 1, scrollCount, last => by
    by_cases h : obs scrollCount = last
    · simp [captureLoopAux, h]
    · simp only [captureLoopAux, if_neg h, List.length_cons]
      exact congrArg _ (captureLoopAux_offsets_length obs fuel (scrollCount + 1) (obs scrollCount))

/-- The loop runs at most `fuel` iterations. -/
lemma captureLoopAux_scrolls_le (obs : Nat → Int) :
    ∀ (fuel scrollCount : Nat) (last : Int),
      (captureLoopAux obs fuel scrollCount last).scrolls ≤ fuel
  | 0, _, _ => le_refl 0
  | fuel + 1, scrollCount, last => by
    by_cases h : obs scrollCount = last
    · simp [captureLoopAux, h]
    · simp only [captureLoopAux, if_neg h]
      exact Nat.succ_le_succ (captureLoopAux_scrolls_le obs fuel (scrollCount + 1) (obs scrollCount))

/-- With fuel left, the loop runs at least one iteration. -/
lemma captureLoopAux_scrolls_pos (obs : Nat → Int) (fuel scrollCount : Nat) (last : Int)
    (hf : 0 < fuel) : 0 < (captureLoopAux obs fuel scrollCount last).scrolls := by
  obtain ⟨fuel, rfl⟩ : ∃ f, fuel = f + 1 := ⟨fuel - 1, by omega⟩
  by_cases h : obs scrollCount = last
  · simp [captureLoopAux, h]
  · simp [captureLoopAux, if_neg h]

/-- Every comparison before the final one came out unequal: each observed
offset other than the last differs from the value it was compared against
(the previous observation, or the sentinel before any observation). -/
lemma captureLoopAux_chain (obs : Nat → Int) :
    ∀ (fuel scrollCount : Nat) (last : Int),
      List.Chain' (fun a b => a ≠ b)
        (last :: (captureLoopAux obs fuel scrollCount last).offsets.dropLast)
  | 0, _, last => List.chain'_singleton last
  | fuel + 1, scrollCount, last => by
    by_cases h : obs scrollCount = last
    · simp only [captureLoopAux, if_pos h, List.dropLast_single]
      exact List.chain'_singleton last
    · simp only [captureLoopAux, if_neg h]
      rcases hro : (captureLoopAux obs fuel (scrollCount + 1) (obs scrollCount)).offsets with
        _ | ⟨b, ro⟩
      · exact List.chain'_singleton last
      · rw [List.dropLast_cons₂, List.chain'_cons]
        refine ⟨fun he => h he.symm, ?_⟩
        have := captureLoopAux_chain obs fuel (scrollCount + 1) (obs scrollCount)
        rwa [hro] at this

/-- The loop stops either because the last observed offset repeated the
previous one, or because the iteration bound was exhausted. -/
lemma captureLoopAux_stop (obs : Nat → Int) :
    ∀ (fuel scrollCount : Nat) (last : Int),
      finalRepeat last (captureLoopAux obs fuel scrollCount last).offsets = true ∨
        (captureLoopAux obs fuel scrollCount last).scrolls = fuel
  | 0, _, _ => Or.inr rfl
  | fuel + 1, scrollCount, last => by
    by_cases h : obs scrollCount = last
    · left
      simp [captureLoopAux, if_pos h, finalRepeat, h]
    · simp only [captureLoopAux, if_neg h]
      rcases hro : (captureLoopAux obs fuel (scrollCount + 1) (obs scrollCount)).offsets with
        _ | ⟨b, ro⟩
      · right
        have hlen := captureLoopAux_offsets_length obs fuel (scrollCount + 1) (obs scrollCount)
        rw [hro, List.length_nil] at hlen
        have hfz : fuel = 0 := by
          by_contra hf
          have hpos := captureLoopAux_scrolls_pos obs fuel (scrollCount + 1) (obs scrollCount)
            (Nat.pos_of_ne_zero hf)
          omega
        subst hfz
        simp [captureLoopAux]
      · have hstep := captureLoopAux_stop obs fuel (scrollCount + 1) (obs scrollCount)
        rw [hro] at hstep
        rcases hstep with hrep | hfuel
        · left
          exact hrep
        · right
          omega

/-- The legacy loop runs at most `fuel` iterations. -/
lemma scrollAndCaptureAux_length_le (obs : Nat → Int) :
    ∀ (fuel scrollCount : Nat) (last : Int),
      (scrollAndCaptureAux obs fuel scrollCount last).length ≤ fuel
  | 0, _, _ => le_refl 0
  | fuel + 1, scrollCount, last => by
    by_cases h : obs scrollCount = last
    · simp [scrollAndCaptureAux, h]
    · simp only [scrollAndCaptureAux, if_neg h, List.length_cons]
      exact Nat.succ_le_succ
        (scrollAndCaptureAux_length_le obs fuel (scrollCount + 1) (obs scrollCount))

/-- With failures in the environment, the loop still returns consecutive
frame indices from the current `scroll_count`: whatever step fails, the
frames accumulated so far come back. -/
lemma captureExcAux_range (env : CaptureEnv) :
    ∀ (fuel scrollCount : Nat) (last : Int),
      ∃ m, m ≤ fuel ∧ captureExcAux env fuel scrollCount last = List.range' scrollCount m
  | 0, _, _ => ⟨0, le_refl 0, rfl⟩
  | fuel + 1, scrollCount, last => by
    by_cases hs : env.saveOk scrollCount
    · rcases hr : env.scrollResult scrollCount with _ | after
      · exact ⟨1, by omega, by simp [captureExcAux, hs, hr]⟩
      · by_cases he : after = last
        · exact ⟨1, by omega, by simp [captureExcAux, hs, hr, he]⟩
        · obtain ⟨m, hm, hrec⟩ := captureExcAux_range env fuel (scrollCount + 1) after
          refine ⟨m + 1, by omega, ?_⟩
          simp [captureExcAux, hs, hr, he, hrec, List.range'_succ]
    · exact ⟨0, by omega, by simp [captureExcAux, hs]⟩

/-- In a failure-free environment, the exception-aware loop captures exactly
the frames of the pure loop. -/
lemma captureExcAux_pureEnv (obs : Nat → Int) :
    ∀ (fuel scrollCount : Nat) (last : Int),
      captureExcAux (pureEnv obs) fuel scrollCount last =
        (captureLoopAux obs fuel scrollCount last).frames
  | 0, _, _ => rfl
  | fuel + 1, scrollCount, last => by
    by_cases h : obs scrollCount = last
    · simp [captureExcAux, captureLoopAux, pureEnv, h]
    · simp only [captureExcAux, captureLoopAux, pureEnv, if_neg h]
      exact congrArg _ (captureExcAux_pureEnv obs fuel (scrollCount + 1) (obs scrollCount))

/-! ### Helper lemmas about the merge -/

/-- A merge whose `output` is `None` did nothing else either: no canvas and
no cleanup. -/
lemma merge_screenshots_output_none {α : Type} (env : MergeEnv α) (screenshots : List α)
    (overlap : Int) (h : (merge_screenshots env screenshots overlap).output = none) :
    merge_screenshots env screenshots overlap = ⟨none, []⟩ := by
  by_cases he : screenshots.isEmpty
  · simp [merge_screenshots, he]
  · rcases hl : loadImages env.load (trimFrames screenshots) with _ | images
    · simp [merge_screenshots, he, hl]
    · rcases images with _ | ⟨img0, rest⟩
      · simp [merge_screenshots, he, hl]
      · by_cases hs : env.saveOk
        · simp [merge_screenshots, he, hl, hs] at h
        · simp [merge_screenshots, he, hl, hs]

/-! ### The claims -/

/-- Claim C1: for every list of screenshot frames passed to the merge
operation, a list of length at most 2 is not trimmed at all, and a longer
list loses exactly its last 2 elements, the surviving frames being the
original ones in their original order (the length-(n-2) head of the list). -/
theorem claim_C1 {α : Type} (frames : List α) :
    (frames.length ≤ 2 → trimFrames frames = frames) ∧
    (2 < frames.length →
      trimFrames frames = frames.take (frames.length - 2) ∧
      trimFrames frames ++ frames.drop (frames.length - 2) = frames ∧
      (frames.drop (frames.length - 2)).length = 2) := by
  constructor
  · intro h
    rw [trimFrames, if_neg (by omega)]
  · intro h
    refine ⟨by rw [trimFrames, if_pos h], ?_, ?_⟩
    · rw [trimFrames, if_pos h]
      exact List.take_append_drop _ _
    · rw [List.length_drop]
      omega

/-- Witness for claim C1 at a 2-element and a 4-element list. -/
theorem claim_C1_witness :
    trimFrames ([10, 20] : List Nat) = [10, 20] ∧
    trimFrames ([1, 2, 3, 4] : List Nat) = [1, 2] := by
  refine ⟨(claim_C1 [10, 20]).1 (by decide), ?_⟩
  have h := ((claim_C1 ([1, 2, 3, 4] : List Nat)).2 (by decide)).1
  simpa using h

/-- Claim C2: the merged canvas height is the sum of the (trimmed) frame
heights minus `overlap_pixels * (n - 1)` when `overlap_pixels > 0` and
`n > 1`, and exactly the sum when `overlap_pixels = 0`; in particular 10
frames of 375x100 with overlap 0 merge, after the last 2 are trimmed, into
a 375x800 canvas. -/
theorem claim_C2 (images : List Img) (overlap_pixels : Int) :
    (0 < overlap_pixels → 1 < images.length →
      canvasHeight images overlap_pixels =
        (images.map fun img => (img.height : Int)).sum -
          overlap_pixels * ((images.length : Int) - 1)) ∧
    (overlap_pixels = 0 →
      canvasHeight images overlap_pixels =
        (images.map fun img => (img.height : Int)).sum) ∧
    (merge_screenshots (α := Nat) ⟨fun _ => some ⟨375, 100⟩, true⟩
        (List.range 10) 0).output = some (375, 800) := by
  refine ⟨fun h1 h2 => ?_, fun h0 => ?_, by decide⟩
  · simp only [canvasHeight]
    rw [if_pos ⟨h1, h2⟩]
  · simp [canvasHeight, h0]

/-- Witness for claim C2: two 375x100 frames with overlap 50 give a
150-pixel canvas, with overlap 0 a 200-pixel canvas. -/
theorem claim_C2_witness :
    canvasHeight [⟨375, 100⟩, ⟨375, 100⟩] 50 = 150 ∧
    canvasHeight [⟨375, 100⟩, ⟨375, 100⟩] 0 = 200 := by
  constructor
  · have h := (claim_C2 [⟨375, 100⟩, ⟨375, 100⟩] 50).1 (by decide) (by decide)
    simpa using h
  · have h := (claim_C2 [⟨375, 100⟩, ⟨375, 100⟩] 0).2.1 rfl
    simpa using h

/-- Claim C3: both capture loops terminate (they are total functions of an
explicit fuel) and capture at most `max_scrolls + 1` frames whatever offsets
the container reports, including offsets that change at every step: the
refactored loop captures at most `max_scrolls` frames, the legacy loop at
most `max_scrolls + 1` (its extra initial frame). -/
theorem claim_C3 (obs : Nat → Int) (max_scrolls : Nat) :
    (captureLoop obs max_scrolls).frames.length ≤ max_scrolls + 1 ∧
    (scroll_and_capture obs max_scrolls).length ≤ max_scrolls + 1 := by
  constructor
  · have h1 := captureLoopAux_frames obs max_scrolls 0 (-1)
    have h2 := captureLoopAux_scrolls_le obs max_scrolls 0 (-1)
    rw [captureLoop, h1, List.length_range']
    omega
  · rw [scroll_and_capture, List.length_cons]
    have h := scrollAndCaptureAux_length_le obs max_scrolls 0 (-1)
    omega

/-- Counterexample to claim C4: a container whose scroll offset is stuck at
0 yields 2 captured frames, not 1 — the first observed offset (0) differs
from the -1 sentinel, so the loop only detects the repeat on its second
comparison. -/
theorem claim_C4_counterexample :
    (captureLoop (fun _ => 0) 50).frames.length = 2 ∧
    ¬ (captureLoop (fun _ => 0) 50).frames.length = 1 := by decide

/-- Claim C4 as amended: a container whose offset never changes (any
constant offset other than the -1 sentinel) yields exactly 2 frames
whenever at least 2 iterations are allowed; the repeat is detected on the
second comparison, not immediately after the first scroll attempt. -/
theorem claim_C4_amended (c : Int) (max_scrolls : Nat) (hc : c ≠ -1)
    (h2 : 2 ≤ max_scrolls) :
    (captureLoop (fun _ => c) max_scrolls).frames.length = 2 := by
  obtain ⟨m, rfl⟩ : ∃ m, max_scrolls = m + 2 := ⟨max_scrolls - 2, by omega⟩
  simp [captureLoop, captureLoopAux, hc]

/-- Witness for the amended claim C4 at offset 5 and bound 49. -/
theorem claim_C4_amended_witness :
    (captureLoop (fun _ => 5) 49).frames.length = 2 :=
  claim_C4_amended 5 49 (by decide) (by decide)

/-- Counterexample to claim C5: in the `scrollHeight = 2000`,
`clientHeight = 800` scenario the loop issues 3 scroll commands, not 2 —
every captured frame is followed by one scroll command, and 3 frames are
captured. -/
theorem claim_C5_counterexample :
    (captureLoop (clampedOffset 2000 800) 50).scrolls = 3 ∧
    ¬ (captureLoop (clampedOffset 2000 800) 50).scrolls = 2 := by decide

/-- Claim C5 as amended: in the `scrollHeight = 2000`, `clientHeight = 800`
scenario the loop captures exactly 3 frames and issues exactly 3 scroll
commands, observing offsets 800, 1200, 1200 (clamped at 2000 - 800 = 1200);
the stop condition fires on the 3rd comparison, when 1200 repeats. -/
theorem claim_C5_amended :
    captureLoop (clampedOffset 2000 800) 50 = ⟨[0, 1, 2], [800, 1200, 1200], 3⟩ ∧
    finalRepeat (-1) (captureLoop (clampedOffset 2000 800) 50).offsets = true := by
  decide

/-- Counterexample to claim C6: the observed offsets need not be
monotonically increasing, and the loop does not stop when they merely stop
increasing — with offsets alternating 100, 50, 100, 50 the loop runs to the
iteration bound (4 frames) even though the offsets decrease twice. -/
theorem claim_C6_counterexample :
    (captureLoop (fun k => if k % 2 = 0 then 100 else 50) 4).offsets =
      [100, 50, 100, 50] ∧
    ¬ List.Chain' (fun a b => a < b)
        (captureLoop (fun k => if k % 2 = 0 then 100 else 50) 4).offsets ∧
    (captureLoop (fun k => if k % 2 = 0 then 100 else 50) 4).frames.length = 4 := by
  refine ⟨by decide, ?_, by decide⟩
  intro h
  rw [show (captureLoop (fun k => if k % 2 = 0 then 100 else 50) 4).offsets =
    [100, 50, 100, 50] by decide] at h
  exact absurd (List.chain'_cons.mp h).1 (by decide)

/-- Claim C6 as amended: the captured frames correspond 1:1 to the observed
offsets (frame k to the k-th observation, one scroll per frame); every
observed offset except possibly the last differs from the value it was
compared against (the previous observation, -1 before any); and the loop
terminates exactly when an observed offset repeats the previous one or the
iteration bound is exhausted — not when offsets merely stop increasing. -/
theorem claim_C6_amended (obs : Nat → Int) (max_scrolls : Nat) :
    (captureLoop obs max_scrolls).frames =
      List.range (captureLoop obs max_scrolls).offsets.length ∧
    (captureLoop obs max_scrolls).offsets.length =
      (captureLoop obs max_scrolls).scrolls ∧
    List.Chain' (fun a b => a ≠ b)
      ((-1) :: (captureLoop obs max_scrolls).offsets.dropLast) ∧
    (finalRepeat (-1) (captureLoop obs max_scrolls).offsets = true ∨
      (captureLoop obs max_scrolls).scrolls = max_scrolls) := by
  simp only [captureLoop]
  refine ⟨?_, captureLoopAux_offsets_length obs max_scrolls 0 (-1),
    captureLoopAux_chain obs max_scrolls 0 (-1),
    captureLoopAux_stop obs max_scrolls 0 (-1)⟩
  rw [captureLoopAux_frames obs max_scrolls 0 (-1),
    captureLoopAux_offsets_length obs max_scrolls 0 (-1), List.range_eq_range']

/-- Counterexample to claim C7: a successful merge of 4 frames deletes only
the 2 frames that survive trimming; frame 3, though referenced in the input
sequence, is never removed. -/
theorem claim_C7_counterexample :
    ((merge_screenshots (α := Nat) ⟨fun _ => some ⟨375, 100⟩, true⟩
        [0, 1, 2, 3] 0).output).isSome = true ∧
    3 ∈ ([0, 1, 2, 3] : List Nat) ∧
    3 ∉ (merge_screenshots (α := Nat) ⟨fun _ => some ⟨375, 100⟩, true⟩
        [0, 1, 2, 3] 0).deleted := by decide

/-- Claim C7 as amended: after a successful merge exactly the files of the
trimmed sequence (the frames actually composited) are removed from storage;
the 2 trimmed-off frames are not deleted, because the source rebinds the
local `screenshots` variable to the trimmed list before cleanup. -/
theorem claim_C7_amended {α : Type} (env : MergeEnv α) (screenshots : List α)
    (overlap : Int)
    (h : ((merge_screenshots env screenshots overlap).output).isSome = true) :
    (merge_screenshots env screenshots overlap).deleted = trimFrames screenshots := by
  by_cases he : screenshots.isEmpty
  · simp [merge_screenshots, he] at h
  · rcases hl : loadImages env.load (trimFrames screenshots) with _ | images
    · simp [merge_screenshots, he, hl] at h
    · rcases images with _ | ⟨img0, rest⟩
      · simp [merge_screenshots, he, hl] at h
      · by_cases hs : env.saveOk
        · simp [merge_screenshots, he, hl, hs]
        · simp [merge_screenshots, he, hl, hs] at h

/-- Witness for the amended claim C7 at a concrete 3-frame merge. -/
theorem claim_C7_amended_witness :
    (merge_screenshots (α := Nat) ⟨fun _ => some ⟨375, 100⟩, true⟩
        [5, 6, 7] 0).deleted = trimFrames [5, 6, 7] :=
  claim_C7_amended _ [5, 6, 7] 0 (by decide)

/-- Claim C8: an empty frame list, a frame-loading failure, or a
canvas-write failure each make the merge return `None` with no partial
output and no cleanup; and whenever the merge returns `None` it has done
nothing at all. The error never propagates: `merge_screenshots` is a total
function whose `except` maps every internal failure to `None`. -/
theorem claim_C8 {α : Type} (env : MergeEnv α) (screenshots : List α) (overlap : Int) :
    (screenshots = [] → merge_screenshots env screenshots overlap = ⟨none, []⟩) ∧
    (loadImages env.load (trimFrames screenshots) = none →
      merge_screenshots env screenshots overlap = ⟨none, []⟩) ∧
    (env.saveOk = false → merge_screenshots env screenshots overlap = ⟨none, []⟩) ∧
    ((merge_screenshots env screenshots overlap).output = none →
      merge_screenshots env screenshots overlap = ⟨none, []⟩) := by
  refine ⟨fun h => ?_, fun h => ?_, fun h => ?_,
    merge_screenshots_output_none env screenshots overlap⟩
  · subst h
    simp [merge_screenshots]
  · by_cases he : screenshots.isEmpty
    · simp [merge_screenshots, he]
    · simp [merge_screenshots, he, h]
  · by_cases he : screenshots.isEmpty
    · simp [merge_screenshots, he]
    · rcases hl : loadImages env.load (trimFrames screenshots) with _ | images
      · simp [merge_screenshots, he, hl]
      · rcases images with _ | ⟨img0, rest⟩
        · simp [merge_screenshots, he, hl]
        · simp [merge_screenshots, he, hl, h]

/-- Witness for claim C8: a failing load and a failing save each yield the
do-nothing outcome on concrete inputs. -/
theorem claim_C8_witness :
    merge_screenshots (α := Nat) ⟨fun _ => none, true⟩ [0] 7 = ⟨none, []⟩ ∧
    merge_screenshots (α := Nat) ⟨fun _ => some ⟨375, 100⟩, false⟩ [0, 1] 7 =
      ⟨none, []⟩ ∧
    merge_screenshots (α := Nat) ⟨fun _ => some ⟨375, 100⟩, true⟩ [] 7 = ⟨none, []⟩ := by
  refine ⟨(claim_C8 _ [0] 7).2.1 (by decide), (claim_C8 _ [0, 1] 7).2.2.1 rfl,
    (claim_C8 _ [] 7).1 rfl⟩

/-- Counterexample to claim C9: with threshold 20, a first capture of 5
frames and a retry capture of only 3 frames, the orchestrator proceeds with
the 3 retry frames — not with the best available result, the 5-frame first
capture. -/
theorem claim_C9_counterexample :
    capture_category_ranking 20 (List.range 5) (some (List.range 3)) =
      ⟨1, some (List.range 3)⟩ ∧
    (List.range 3).length < (List.range 5).length ∧
    (capture_category_ranking 20 (List.range 5) (some (List.range 3))).chosen ≠
      some (List.range 5) := by decide

/-- Claim C9 as amended: a non-empty first capture below the threshold
triggers exactly one session-restart-and-retry pass, and the run proceeds
with a non-empty degraded result rather than failing: the retry frames
whenever the retry captured anything (even fewer frames than the first
pass), the first-pass frames when the retry captured nothing or raised. -/
theorem claim_C9_amended {α : Type} (threshold : Nat) (first : List α)
    (retryRun : Option (List α)) (h1 : first ≠ []) (h2 : first.length < threshold) :
    (capture_category_ranking threshold first retryRun).restarts = 1 ∧
    ∃ l, (capture_category_ranking threshold first retryRun).chosen = some l ∧
      l ≠ [] ∧
      (retryRun = none → l = first) ∧
      (∀ r, retryRun = some r → (r = [] → l = first) ∧ (r ≠ [] → l = r)) := by
  have he : first.isEmpty = false := by
    simpa [List.isEmpty_iff] using h1
  rcases retryRun with _ | r
  · refine ⟨by simp [capture_category_ranking, he, h2], first, ?_⟩
    simp [capture_category_ranking, he, h2, h1]
  · by_cases hr : r.isEmpty
    · have hre : r = [] := List.isEmpty_iff.mp hr
      refine ⟨by simp [capture_category_ranking, he, h2, hr], first, ?_⟩
      simp [capture_category_ranking, he, h2, hr, h1, hre]
    · have hrne : r ≠ [] := by
        simpa [List.isEmpty_iff] using hr
      refine ⟨by simp [capture_category_ranking, he, h2, hr], r, ?_⟩
      simp [capture_category_ranking, he, h2, hr, hrne]

/-- Witness for the amended claim C9: first capture of one frame, retry
raising. -/
theorem claim_C9_amended_witness :
    (capture_category_ranking 20 [(0 : Nat)] none).restarts = 1 ∧
    ∃ l, (capture_category_ranking 20 [(0 : Nat)] none).chosen = some l ∧
      l ≠ [] ∧
      ((none : Option (List Nat)) = none → l = [0]) ∧
      (∀ r, (none : Option (List Nat)) = some r →
        (r = [] → l = [0]) ∧ (r ≠ [] → l = r)) :=
  claim_C9_amended 20 [0] none (by decide) (by decide)

/-- Claim C10: the capture operation never propagates an exception: whatever
driver or file operation fails at whatever step, it returns the frames
accumulated so far — always a consecutive run `0, 1, ..., m-1` with
`m ≤ max_scrolls`, possibly empty. A raising container check yields `[]`, a
first-save failure yields `[]`, and a first-scroll failure yields the one
frame already captured — in contrast to the merge, which returns no output
on error. -/
theorem claim_C10 (env : CaptureEnv) (max_scrolls : Nat) :
    (∃ m, m ≤ max_scrolls ∧
      capture_scrolling_screenshots env max_scrolls = List.range m) ∧
    (env.containerExists = none →
      capture_scrolling_screenshots env max_scrolls = []) ∧
    (env.containerExists = some true → env.infoOk = true → env.saveOk 0 = false →
      capture_scrolling_screenshots env max_scrolls = []) ∧
    (env.containerExists = some true → env.infoOk = true → env.saveOk 0 = true →
      env.scrollResult 0 = none → 0 < max_scrolls →
      capture_scrolling_screenshots env max_scrolls = [0]) := by
  refine ⟨?_, fun h1 => by simp [capture_scrolling_screenshots, h1],
    fun h1 h2 h3 => ?_, fun h1 h2 h3 h4 h5 => ?_⟩
  · rcases hce : env.containerExists with _ | b
    · exact ⟨0, Nat.zero_le _, by simp [capture_scrolling_screenshots, hce]⟩
    · rcases b with _ | _
      · exact ⟨0, Nat.zero_le _, by simp [capture_scrolling_screenshots, hce]⟩
      · by_cases hio : env.infoOk
        · obtain ⟨m, hm, heq⟩ := captureExcAux_range env max_scrolls 0 (-1)
          exact ⟨m, hm, by
            simp [capture_scrolling_screenshots, hce, hio, heq, List.range_eq_range']⟩
        · exact ⟨0, Nat.zero_le _, by simp [capture_scrolling_screenshots, hce, hio]⟩
  · rcases max_scrolls with _ | m
    · simp [capture_scrolling_screenshots, h1, h2, captureExcAux]
    · simp [capture_scrolling_screenshots, h1, h2, captureExcAux, h3]
  · obtain ⟨m, rfl⟩ : ∃ m, max_scrolls = m + 1 := ⟨max_scrolls - 1, by omega⟩
    simp [capture_scrolling_screenshots, h1, h2, captureExcAux, h3, h4]

/-- Witness for claim C10: a first-save failure returns no frames, a
first-scroll failure returns the single frame captured before it. -/
theorem claim_C10_witness :
    capture_scrolling_screenshots ⟨some true, true, fun _ => false, fun _ => none⟩ 5 = [] ∧
    capture_scrolling_screenshots ⟨some true, true, fun _ => true, fun _ => none⟩ 5 = [0] := by
  exact ⟨(claim_C10 _ 5).2.2.1 rfl rfl rfl, (claim_C10 _ 5).2.2.2 rfl rfl rfl rfl (by decide)⟩

end OliveYoung
